import Mathlib

/-
Shallow embedding of the reconciliation decision engine of
`scripts/update_metadata.py` (geograph-update-bot).

The embedded code is `UpdateMetadataBot`: `should_set_location`,
`unmodified_on_geograph_since_upload`, `has_sdc_geocoding`, the decision /
commit phases of `process_page`, and the exception dispatch of `treat_page`.

External collaborators that live in modules not present under `src/`
(`location.py`, `creditline.py`, `gubutil.py`, pywikibot, the sqlite
database) are modelled as parameters or as small definitions marked
`Modelled from the spec:`.
-/

namespace GeographUpdateBot

/-- Embedded location template (a `{{Location}}` / `{{Object location}}`
template node as `update_metadata.py` consumes it).  `prec` models the
template's `prec` parameter (metres; the source reads it as
`int(str(t.get('prec').value))` and, in the no-geocoding branch, compares
its string form with `'1000'`, which on canonical decimal output is the
test `prec ≠ 1000`).  `source` models `location_params(t)['source']`, the
provenance tag (absent source parameter modelled as `""`).  `has4` models
`t.has(4)`, presence of a 4th positional field.  `lat`/`lon` model the
coordinates (scaled integers; they only enter decisions through template
equality and through the external geodesic distance, which is a
parameter).  Template equality is value equality of all fields. -/
structure LocTemplate where
  lat : Int
  lon : Int
  prec : Nat
  source : String
  has4 : Bool
deriving DecidableEq, Repr

/-- Python `c in s` on a one-character string: membership of the character
in the string (computed on the underlying character list, so that concrete
instances evaluate inside the kernel). -/
def strContains (s : String) (c : Char) : Bool :=
  s.data.contains c

/-- Python `s.startswith(p)` (computed on the underlying character
lists). -/
def strStartsWith (s p : String) : Bool :=
  p.data.isPrefixOf s.data

/-- Python `re.match(r'^geograph(-|$)', s)` as a Boolean: the regex matches
iff `s` starts with `"geograph-"`, or equals `"geograph"`, or (because `$`
also matches just before a trailing newline) equals `"geograph\n"`. -/
def geographSource (s : String) : Bool :=
  strStartsWith s "geograph-" || s = "geograph" || s = "geograph\n"

/-- UpdateMetadataBot.should_set_location (update_metadata.py lines 69-96),
translated statement by statement.  `dist` stands for the external geodesic
`az_dist_between_locations` from `location.py` (only its distance component
is consulted, as a whole number of metres, compared with `<` against the
candidate's `prec`).  `should_set` starts `True`; each rule can only lower
it to `False`:
  * `old == new` (including both absent) clears it;
  * when both are present and the old source has no `'-'` (no gridref):
    a 4th positional field clears it, otherwise a move strictly inside the
    candidate's precision clears it;
  * when both are present and the sources are equal it is cleared. -/
def should_set_location (dist : LocTemplate → LocTemplate → Nat)
    (old_template new_template : Option LocTemplate) : Bool :=
  let s1 := true
  let s2 := if old_template = new_template then false else s1
  let s3 :=
    match old_template, new_template with
    | some o, some n =>
      if ¬ strContains o.source '-' then
        if o.has4 then
          false
        else
          if dist o n < n.prec then false else s2
      else s2
    | _, _ => s2
  match old_template, new_template with
  | some o, some n => if o.source = n.source then false else s3
  | _, _ => s3

/-- SDC (structured-data overlay) statements, restricted to the two
geocoding properties `has_sdc_geocoding` inspects. -/
structure SdcStatements where
  hasP625 : Bool
  hasP1259 : Bool
deriving DecidableEq, Repr

/-- UpdateMetadataBot.has_sdc_geocoding (lines 110-113): the overlay holds
a geocoding statement iff it has a `P625` or a `P1259` statement. -/
def has_sdc_geocoding (s : SdcStatements) : Bool :=
  s.hasP625 || s.hasP1259

/-- The six slot-decision Booleans of `process_page`. -/
structure LocFlags where
  location_added : Bool
  location_replaced : Bool
  location_removed : Bool
  object_location_added : Bool
  object_location_replaced : Bool
  object_location_removed : Bool
deriving DecidableEq, Repr

/-- All six flags `False`, the state `process_page` initialises. -/
def LocFlags.none : LocFlags :=
  ⟨false, false, false, false, false, false⟩

/-- Result of the location phase of `process_page`: the flags, plus whether
`set_location` / `set_object_location` was called on the parse tree. -/
structure LocPhase where
  flags : LocFlags
  camWritten : Bool
  objWritten : Bool
deriving DecidableEq, Repr

/-- Location-decision phase of UpdateMetadataBot.process_page (lines
150-220).  `old_cam`/`old_obj` are `get_location(tree)` /
`get_object_location(tree)` (`none` on `IndexError`); `new_cam`/`new_obj`
are `location_from_row(row)` / `object_location_from_row(row)` (external,
hence parameters); `sdc` is the overlay statement set read by
`get_sdc_statements`.
  * Both slots empty: the camera location is set (and `location_added`
    raised) only when the row yields one whose `prec` is not `1000`;
    `set_object_location` is called and `object_location_added` raised
    unconditionally.  No SDC check happens on this path.
  * Otherwise, when every present slot's source matches
    `^geograph(-|$)`: the two `should_set_location` decisions are
    computed, then both are forced to `False` when (either is set and)
    the overlay has geocoding; each surviving decision writes its slot
    and raises added/removed/replaced according to old/new presence.
  * Otherwise (a present slot with a foreign source) nothing happens. -/
def process_page_location_phase (dist : LocTemplate → LocTemplate → Nat)
    (old_cam old_obj new_cam new_obj : Option LocTemplate)
    (sdc : SdcStatements) : LocPhase :=
  if old_cam = none ∧ old_obj = none then
    let camW := match new_cam with
      | some t => t.prec ≠ 1000
      | none => false
    { flags := { LocFlags.none with
        location_added := camW, object_location_added := true },
      camWritten := camW, objWritten := true }
  else
    if (old_cam = none ∨ geographSource ((old_cam.map LocTemplate.source).getD "")) ∧
       (old_obj = none ∨ geographSource ((old_obj.map LocTemplate.source).getD "")) then
      let should_set_cam0 := should_set_location dist old_cam new_cam
      let should_set_obj0 := should_set_location dist old_obj new_obj
      let suppress := (should_set_cam0 || should_set_obj0) && has_sdc_geocoding sdc
      let should_set_cam := if suppress then false else should_set_cam0
      let should_set_obj := if suppress then false else should_set_obj0
      { flags :=
        { location_added := should_set_cam && old_cam = none && new_cam ≠ none,
          location_removed := should_set_cam && old_cam ≠ none && new_cam = none,
          location_replaced := should_set_cam && old_cam ≠ none && new_cam ≠ none,
          object_location_added := should_set_obj && old_obj = none && new_obj ≠ none,
          object_location_removed := should_set_obj && old_obj ≠ none && new_obj = none,
          object_location_replaced := should_set_obj && old_obj ≠ none && new_obj ≠ none },
        camWritten := should_set_cam, objWritten := should_set_obj }
    else
      { flags := LocFlags.none, camWritten := false, objWritten := false }

/-- UpdateMetadataBot.unmodified_on_geograph_since_upload (lines 58-68).
Timestamps are modelled as instants on one common timeline (integers):
`commons_dt` is the page's first-revision timestamp tagged UTC, and
`geograph_dt` is the row's `upd_timestamp` parsed and tagged Europe/London;
the zone conversions are done by the datetime library, after which the
function is exactly the strict comparison `geograph_dt < commons_dt`. -/
def unmodified_on_geograph_since_upload (geograph_dt commons_dt : Int) : Bool :=
  geograph_dt < commons_dt

/-- Credit-line step of process_page (lines 221-228): the credit line is
added (and `creditline_added` raised) iff `can_add_creditline` allows it
and the row is unmodified on Geograph since upload.

Modelled from the spec: `can_add_creditline` lives in `creditline.py`,
which is not under `src/`; per the spec it is "true only if no equivalent
credit line is already present", and it enters here only as a Boolean. -/
def process_page_creditline_phase (can_add : Bool)
    (geograph_dt commons_dt : Int) : Bool :=
  can_add && unmodified_on_geograph_since_upload geograph_dt commons_dt

/-- Base edit summary of process_page (lines 231-311): the chain of
`if location_added: ... elif ...` branches over the six flags.  `camMove`
and `objMove` stand for `describe_move(old, new)` for the camera and
object slot, and `rowDesc` for `format_row(row)` (both external string
producers in `location.py`). -/
def base_summary (f : LocFlags) (camMove objMove rowDesc : String) : String :=
  if f.location_added then
    if f.object_location_added then
      "Add camera and object locations from Geograph (" ++ rowDesc ++ ")"
    else if f.object_location_replaced then
      "Add camera location and update object location (" ++ objMove ++
        "), both from Geograph (" ++ rowDesc ++ ")"
    else if f.object_location_removed then
      "Add camera location from Geograph (" ++ rowDesc ++
        ") and remove Geograph-derived 1km-precision object location"
    else
      "Add camera location from Geograph (" ++ rowDesc ++ ")"
  else if f.location_replaced then
    if f.object_location_added then
      "Update camera location (" ++ camMove ++
        ") and add object location, both from Geograph (" ++ rowDesc ++ ")"
    else if f.object_location_replaced then
      "Update camera and object locations (" ++ camMove ++ " and " ++
        objMove ++ ", respectively) from Geograph (" ++ rowDesc ++ ")"
    else if f.object_location_removed then
      "Update camera location (" ++ camMove ++ ") from Geograph (" ++
        rowDesc ++ ") and remove Geograph-derived 1km-precision object location"
    else
      "Update camera location (" ++ camMove ++ ") from Geograph (" ++
        rowDesc ++ ")"
  else if f.location_removed then
    if f.object_location_added then
      "Remove Geograph-derived camera location (no longer on Geograph, " ++
        "or 1km precision) and add object location from Geograph (" ++
        rowDesc ++ ")"
    else if f.object_location_replaced then
      "Remove Geograph-derived camera location (no longer on Geograph, " ++
        "or 1km precision) and update object location (" ++ objMove ++
        ") from Geograph (" ++ rowDesc ++ ")"
    else
      "Remove Geograph-derived camera location (no longer on Geograph, or 1km precision)"
  else if f.object_location_added then
    "Add object location from Geograph (" ++ rowDesc ++ ")"
  else if f.object_location_replaced then
    "Update object location (" ++ objMove ++ ") from Geograph (" ++ rowDesc ++ ")"
  else if f.object_location_removed then
    "Remove Geograph-derived 1km-precision object location"
  else
    ""

/-- Full edit-summary synthesis of process_page (lines 231-322): the base
summary, then the credit-line clause (lines 312-316: standalone when the
base is empty, otherwise joined with "; "), then the MapIt attribution
notice appended whenever `mapit.used` is set (lines 317-322). -/
def synthesize (f : LocFlags) (creditline_added : Bool)
    (camMove objMove rowDesc : String) (mapitUsed : Bool) : String :=
  let base := base_summary f camMove objMove rowDesc
  let withCredit :=
    if creditline_added then
      if base = "" then "Add credit line with title from Geograph"
      else base ++ "; add credit line with title from Geograph"
    else base
  if mapitUsed then
    withCredit ++ " [powered by MapIt: http://global.mapit.mysociety.org]"
  else withCredit

/-- Outcome of the tail of one process_page attempt. -/
inductive CommitResult where
  | noop
  | restart
  | save (text summary : String) (minor : Bool)
deriving DecidableEq, Repr

/-- Commit phase of process_page (lines 229-233 and 323-333): if the
serialized tree equals the original page text, nothing happens at all (no
summary, no save); otherwise the summary is synthesized and, if the page's
latest revision id no longer equals the one captured at the start,
`process_page` restarts; otherwise the new text is saved with the
summary. -/
def process_page_commit_phase (origText newText : String) (f : LocFlags)
    (creditline_added : Bool) (camMove objMove rowDesc : String)
    (mapitUsed : Bool) (revidSnap revidNow : Nat) (minor : Bool) :
    CommitResult :=
  if newText = origText then
    CommitResult.noop
  else
    let summary := synthesize f creditline_added camMove objMove rowDesc mapitUsed
    if revidNow ≠ revidSnap then CommitResult.restart
    else CommitResult.save newText summary minor

/-- A page observation: its wikitext and its latest revision id. -/
structure PageView where
  text : String
  revid : Nat
deriving DecidableEq, Repr

/-- The process_page retry loop (lines 122, 229-233, 324-333), with the
whole decision pipeline abstracted as `compute : PageView → String` (the
new text obtained from the snapshot's parse tree after applying all
decisions).  Attempt `i` snapshots `snaps i` (capturing text and
`latest_revision_id`), computes the new text, and
  * stops without saving when the new text equals the snapshot's text;
  * restarts as attempt `i+1` when `latest_revision_id` re-read at
    validation time (`validRevid i`) differs from the captured one
    (the recursive `self.process_page(page)` call);
  * otherwise saves the computed text.
`fuel` bounds the recursion depth (Python recurses unboundedly); `none`
means the fuel ran out, `some none` a no-op end, `some (some (i, t))` a
save of text `t` performed by attempt `i`. -/
def process_page_loop (compute : PageView → String) (snaps : Nat → PageView)
    (validRevid : Nat → Nat) : Nat → Nat → Option (Option (Nat × String))
  | 0, _ => none
  | fuel + 1, i =>
    let snap := snaps i
    let newtext := compute snap
    if newtext = snap.text then some none
    else if validRevid i ≠ snap.revid then
      process_page_loop compute snaps validRevid fuel (i + 1)
    else some (some (i, newtext))

/-- The exception kinds of update_metadata.py (lines 37-50) together with
`TooManyTemplates` (imported from `gubutil`) and a stand-in for any other
exception.  `badTemplate`, `notInGeographDatabase` and `uploadFailed` are
the subclasses of `MinorProblem`; `badGeographDatabase` is the subclass of
`MajorProblem`. -/
inductive Exc where
  | notEligible
  | minorProblem
  | badTemplate
  | notInGeographDatabase
  | uploadFailed
  | majorProblem
  | badGeographDatabase
  | tooManyTemplates
  | other
deriving DecidableEq, Repr

/-- Python `isinstance(e, MinorProblem)`. -/
def Exc.isMinorProblem : Exc → Bool
  | .minorProblem | .badTemplate | .notInGeographDatabase | .uploadFailed => true
  | _ => false

/-- Python `isinstance(e, MajorProblem)`. -/
def Exc.isMajorProblem : Exc → Bool
  | .majorProblem | .badGeographDatabase => true
  | _ => false

/-- What became of the exception (if any) process_page raised: handled at
the per-item boundary with a log call of some level, or propagated out of
`treat_page` to the worklist driver. -/
inductive TreatResult where
  | ok
  | loggedInfo
  | loggedWarning
  | loggedError
  | propagated (e : Exc)
deriving DecidableEq, Repr

/-- UpdateMetadataBot.treat_page (lines 335-345): `process_page` runs under
`except` clauses tried in order — `NotEligible` is logged (`bot.log`),
`MinorProblem` is logged as a warning, `MajorProblem` as an error,
`TooManyTemplates` as an error; anything else propagates. -/
def treat_page (outcome : Option Exc) : TreatResult :=
  match outcome with
  | none => TreatResult.ok
  | some e =>
    if e = Exc.notEligible then TreatResult.loggedInfo
    else if e.isMinorProblem then TreatResult.loggedWarning
    else if e.isMajorProblem then TreatResult.loggedError
    else if e = Exc.tooManyTemplates then TreatResult.loggedError
    else TreatResult.propagated e

/-- C7: deciding a slot again with `old = candidate` yields `NONE`:
`should_set_location t t` returns `false` for every template value
(including both-absent), for any geodesic distance function. -/
theorem C7_should_set_location_idempotent
    (dist : LocTemplate → LocTemplate → Nat) (t : Option LocTemplate) :
    should_set_location dist t t = false := by
  cases t <;> simp [should_set_location]

/-- C2 counterexample: an old template that IS grid-reference-sourced (its
source contains the separator `'-'`), a candidate 200 m away with stated
precision 1000 m, yet `should_set_location` returns `true` (decision
UPDATE, not NONE): the distance-versus-precision rule is skipped exactly
when the old source carries a gridref. -/
theorem C2_counterexample :
    should_set_location (fun _ _ => 200)
        (some ⟨10, 20, 1000, "geograph-SP1234", false⟩)
        (some ⟨11, 21, 1000, "geograph-SP5678", false⟩) = true ∧
      strContains "geograph-SP1234" '-' = true ∧ (200 : Nat) < 1000 := by
  decide

/-- C2 amended: for present old and candidate templates where the old
record is NOT grid-reference-sourced (its source contains no `'-'`
separator) and the geodesic distance is strictly below the candidate's
stated precision, `should_set_location` returns `false`: movement within
the candidate's precision radius never triggers an update. -/
theorem C2_precision_radius_no_update
    (dist : LocTemplate → LocTemplate → Nat) (o n : LocTemplate)
    (hsrc : strContains o.source '-' = false)
    (hdist : dist o n < n.prec) :
    should_set_location dist (some o) (some n) = false := by
  simp only [should_set_location, hsrc, Bool.not_false, if_true,
    Bool.false_eq_true, not_false_eq_true, if_pos, hdist]
  split
  · rfl
  · split <;> rfl

/-- C2 witness: the amended theorem applied at a concrete non-gridref old
template and a candidate 200 m away with precision 1000 m. -/
theorem C2_precision_radius_no_update_witness :
    should_set_location (fun _ _ => 200)
        (some ⟨10, 20, 1000, "geograph", false⟩)
        (some ⟨11, 21, 1000, "geograph-SP5678", false⟩) = false :=
  C2_precision_radius_no_update (fun _ _ => 200)
    ⟨10, 20, 1000, "geograph", false⟩ ⟨11, 21, 1000, "geograph-SP5678", false⟩
    (by decide) (by decide)

/-- C1 counterexample: the overlay holds a `P625` statement, both slots are
previously empty, and the decisions are nevertheless not downgraded — the
camera location (precision 100 ≠ 1000) and the object location are both
added to the embedded text.  The no-geocoding branch of `process_page`
never consults the overlay. -/
theorem C1_counterexample :
    has_sdc_geocoding ⟨true, false⟩ = true ∧
      (process_page_location_phase (fun _ _ => 0) none none
          (some ⟨1, 2, 100, "geograph", false⟩)
          (some ⟨1, 2, 1000, "geograph", false⟩) ⟨true, false⟩).flags.location_added
        = true ∧
      (process_page_location_phase (fun _ _ => 0) none none
          (some ⟨1, 2, 100, "geograph", false⟩)
          (some ⟨1, 2, 1000, "geograph", false⟩) ⟨true, false⟩).flags.object_location_added
        = true := by
  exact ⟨rfl, rfl, rfl⟩

/-- C1 amended: in every reconciliation attempt in which at least one slot
already holds a location, an overlay geocoding statement (`P625` or
`P1259`) downgrades all location decisions for both slots to NONE — no
flag is raised and neither slot is written.  When both slots are
previously empty, the overlay is not consulted and locations are added
from the authoritative row. -/
theorem C1_sdc_geocoding_suppresses_updates
    (dist : LocTemplate → LocTemplate → Nat)
    (old_cam old_obj new_cam new_obj : Option LocTemplate)
    (sdc : SdcStatements)
    (hpresent : old_cam ≠ none ∨ old_obj ≠ none)
    (hsdc : has_sdc_geocoding sdc = true) :
    process_page_location_phase dist old_cam old_obj new_cam new_obj sdc =
      ⟨LocFlags.none, false, false⟩ := by
  have hne : ¬ (old_cam = none ∧ old_obj = none) := by
    rcases hpresent with h | h
    · exact fun hc => h hc.1
    · exact fun hc => h hc.2
  unfold process_page_location_phase
  rw [if_neg hne]
  split
  · cases hsc : should_set_location dist old_cam new_cam <;>
      cases hso : should_set_location dist old_obj new_obj <;>
        simp [hsc, hso, hsdc, LocFlags.none]
  · rfl

/-- C1 witness: the amended theorem applied with an existing camera
location, an overlay `P625` statement, and a fresh candidate. -/
theorem C1_sdc_geocoding_suppresses_updates_witness :
    process_page_location_phase (fun _ _ => 500)
        (some ⟨10, 20, 1000, "geograph", false⟩) none
        (some ⟨30, 40, 100, "geograph", false⟩) none ⟨true, false⟩ =
      ⟨LocFlags.none, false, false⟩ :=
  C1_sdc_geocoding_suppresses_updates (fun _ _ => 500)
    (some ⟨10, 20, 1000, "geograph", false⟩) none
    (some ⟨30, 40, 100, "geograph", false⟩) none ⟨true, false⟩
    (Or.inl (by decide)) rfl

/-- C9: if either slot holds an existing location whose source fails the
pattern `^geograph(-|$)`, then neither slot is touched: all six decision
flags stay `false` and neither `set_location` nor `set_object_location` is
called, regardless of the other slot, the candidates, the overlay and the
distances. -/
theorem C9_foreign_provenance_freezes_both_slots
    (dist : LocTemplate → LocTemplate → Nat)
    (old_cam old_obj new_cam new_obj : Option LocTemplate)
    (sdc : SdcStatements)
    (hforeign : (∃ t, old_cam = some t ∧ geographSource t.source = false) ∨
      (∃ t, old_obj = some t ∧ geographSource t.source = false)) :
    process_page_location_phase dist old_cam old_obj new_cam new_obj sdc =
      ⟨LocFlags.none, false, false⟩ := by
  have hne : ¬ (old_cam = none ∧ old_obj = none) := by
    rcases hforeign with ⟨t, ht, _⟩ | ⟨t, ht, _⟩ <;> intro hc
    · rw [hc.1] at ht; exact Option.noConfusion ht
    · rw [hc.2] at ht; exact Option.noConfusion ht
  have hcond : ¬ ((old_cam = none ∨
      geographSource ((old_cam.map LocTemplate.source).getD "") = true) ∧
      (old_obj = none ∨
      geographSource ((old_obj.map LocTemplate.source).getD "") = true)) := by
    rcases hforeign with ⟨t, ht, hg⟩ | ⟨t, ht, hg⟩ <;> intro hc
    · rcases hc.1 with h | h
      · rw [h] at ht; exact Option.noConfusion ht
      · rw [ht] at h; simp [Option.map, Option.getD] at h; rw [h] at hg
        exact Bool.noConfusion hg
    · rcases hc.2 with h | h
      · rw [h] at ht; exact Option.noConfusion ht
      · rw [ht] at h; simp [Option.map, Option.getD] at h; rw [h] at hg
        exact Bool.noConfusion hg
  unfold process_page_location_phase
  rw [if_neg hne, if_neg hcond]

/-- C9 witness: an existing object location with source `"other"` freezes
both slots even though the camera slot is empty and fresh candidates
exist. -/
theorem C9_foreign_provenance_freezes_both_slots_witness :
    process_page_location_phase (fun _ _ => 500) none
        (some ⟨10, 20, 1000, "other", false⟩)
        (some ⟨30, 40, 100, "geograph", false⟩)
        (some ⟨30, 40, 100, "geograph", false⟩) ⟨false, false⟩ =
      ⟨LocFlags.none, false, false⟩ :=
  C9_foreign_provenance_freezes_both_slots (fun _ _ => 500) none
    (some ⟨10, 20, 1000, "other", false⟩)
    (some ⟨30, 40, 100, "geograph", false⟩)
    (some ⟨30, 40, 100, "geograph", false⟩) ⟨false, false⟩
    (Or.inr ⟨⟨10, 20, 1000, "other", false⟩, rfl, by decide⟩)

/-- C10: on a page with no existing geocoding (both slots empty), the
camera location is written and its added-flag raised exactly when the row
yields a camera candidate whose precision is not 1000; the object slot is
always written and `object_location_added` is always raised, even when the
row yields no object candidate; no replace/remove flag can be raised. -/
theorem C10_no_geocoding_branch
    (dist : LocTemplate → LocTemplate → Nat)
    (new_cam new_obj : Option LocTemplate) (sdc : SdcStatements) :
    (process_page_location_phase dist none none new_cam new_obj sdc).objWritten
        = true ∧
      (process_page_location_phase dist none none new_cam new_obj
          sdc).flags.object_location_added = true ∧
      ((process_page_location_phase dist none none new_cam new_obj
          sdc).flags.location_added = true ↔
        ∃ t, new_cam = some t ∧ t.prec ≠ 1000) ∧
      (process_page_location_phase dist none none new_cam new_obj sdc).camWritten
        = (process_page_location_phase dist none none new_cam new_obj
          sdc).flags.location_added ∧
      (process_page_location_phase dist none none new_cam new_obj
          sdc).flags.location_replaced = false ∧
      (process_page_location_phase dist none none new_cam new_obj
          sdc).flags.location_removed = false ∧
      (process_page_location_phase dist none none new_cam new_obj
          sdc).flags.object_location_replaced = false ∧
      (process_page_location_phase dist none none new_cam new_obj
          sdc).flags.object_location_removed = false := by
  cases new_cam <;> simp [process_page_location_phase, LocFlags.none]

/-- C3 counterexample: `BadGeographDatabase` (a `MajorProblem`) raised by
`process_page` is caught by `treat_page`'s `except MajorProblem` clause and
logged as an error at the per-item boundary — it is not propagated to the
process boundary. -/
theorem C3_counterexample :
    treat_page (some Exc.badGeographDatabase) = TreatResult.loggedError ∧
      treat_page (some Exc.badGeographDatabase) ≠
        TreatResult.propagated Exc.badGeographDatabase := by
  decide

/-- C3 amended: every `MajorProblem` (including `BadGeographDatabase`)
raised during per-item processing is caught at the per-item boundary by
`treat_page` and logged as an error, just like the skip-and-log problems;
it does not escape to the worklist driver, so the run continues.  (Only an
exception outside the handled hierarchy propagates.) -/
theorem C3_major_problem_caught_per_item
    (e : Exc) (h : e.isMajorProblem = true) :
    treat_page (some e) = TreatResult.loggedError := by
  cases e <;> simp_all [treat_page, Exc.isMajorProblem, Exc.isMinorProblem]

/-- C3 witness: the amended theorem applied at `BadGeographDatabase`. -/
theorem C3_major_problem_caught_per_item_witness :
    treat_page (some Exc.badGeographDatabase) = TreatResult.loggedError :=
  C3_major_problem_caught_per_item Exc.badGeographDatabase (by decide)

/-- C4: when the text serialized from the parse tree after applying all
decisions equals the original page text, the commit phase is a no-op — no
summary is used and `page.save` is not reached — for every combination of
slot flags, credit-line flag, move/row descriptors, MapIt usage, revision
ids and minor flag, including combinations in which decisions were
non-NONE. -/
theorem C4_unchanged_text_never_saves
    (origText : String) (f : LocFlags) (creditline_added : Bool)
    (camMove objMove rowDesc : String) (mapitUsed : Bool)
    (revidSnap revidNow : Nat) (minor : Bool) :
    process_page_commit_phase origText origText f creditline_added
        camMove objMove rowDesc mapitUsed revidSnap revidNow minor =
      CommitResult.noop := by
  simp [process_page_commit_phase]

/-- C5: `creditline_added` is raised iff `can_add_creditline` holds (no
equivalent credit line already present, modelled from the spec) and the
row's update timestamp, as a Europe/London instant, is strictly earlier
than the page's first-revision timestamp, as a UTC instant.  In
particular, when the update instant is equal to or later than the
first-revision instant, no credit line is added even if the text lacks
one. -/
theorem C5_creditline_freshness_gate
    (can_add : Bool) (geograph_dt commons_dt : Int) :
    process_page_creditline_phase can_add geograph_dt commons_dt = true ↔
      can_add = true ∧ geograph_dt < commons_dt := by
  simp [process_page_creditline_phase, unmodified_on_geograph_since_upload]

/-- C6: a save performed by the retry loop always comes from an attempt
whose validation-time revision id equals the snapshot revision id, and the
saved text is exactly the text computed from that attempt's own (fresh)
snapshot — text computed from a snapshot that went stale is never saved,
the loop instead recurses on a new attempt. -/
theorem C6_commit_only_from_validated_snapshot
    (compute : PageView → String) (snaps : Nat → PageView)
    (validRevid : Nat → Nat) (fuel i j : Nat) (t : String)
    (h : process_page_loop compute snaps validRevid fuel i =
      some (some (j, t))) :
    validRevid j = (snaps j).revid ∧ t = compute (snaps j) := by
  induction fuel generalizing i with
  | zero => exact Option.noConfusion h
  | succ fuel ih =>
    rw [process_page_loop] at h
    by_cases h1 : compute (snaps i) = (snaps i).text
    · rw [if_pos h1] at h
      exact Option.noConfusion (Option.some.inj h)
    · rw [if_neg h1] at h
      by_cases h2 : validRevid i ≠ (snaps i).revid
      · rw [if_pos h2] at h
        exact ih (i + 1) h
      · rw [if_neg h2] at h
        obtain ⟨hj, ht⟩ := Prod.mk.injEq .. ▸
          (Option.some.inj (Option.some.inj h))
        subst hj
        exact ⟨not_not.mp h2, ht.symm⟩

/-- C6 witness: the theorem applied to a one-attempt run in which the
revision id is unchanged at validation, so the computed text is saved. -/
theorem C6_commit_only_from_validated_snapshot_witness :
    (fun _ => 5 : Nat → Nat) 0 = ((fun _ => PageView.mk "a" 5) 0 : PageView).revid ∧
      "b" = (fun _ => "b" : PageView → String) ((fun _ => PageView.mk "a" 5) 0) :=
  C6_commit_only_from_validated_snapshot (fun _ => "b") (fun _ => PageView.mk "a" 5)
    (fun _ => 5) 1 0 0 "b" rfl

/-- C8: for every flag combination with the credit-line flag set, the
synthesized summary is the fixed credit-line clause standing alone when
the base summary is empty, and otherwise the base summary joined to the
clause with "; " — followed in either case by the MapIt attribution
notice exactly when MapIt was used (that notice is appended
unconditionally after the credit-line composition). -/
theorem C8_creditline_clause_in_summary
    (f : LocFlags) (camMove objMove rowDesc : String) (mapitUsed : Bool) :
    synthesize f true camMove objMove rowDesc mapitUsed =
      (if base_summary f camMove objMove rowDesc = "" then
        "Add credit line with title from Geograph"
      else
        base_summary f camMove objMove rowDesc ++
          ("; " ++ "add credit line with title from Geograph")) ++
        (if mapitUsed then
          " [powered by MapIt: http://global.mapit.mysociety.org]"
        else "") := by
  cases mapitUsed <;> simp [synthesize]

end GeographUpdateBot
